import Mathlib

/-!
# overlaybd-snapshotter: process lifecycle

A shallow embedding of `cmd/overlaybd-snapshotter/main.go`:
`parseConfig`, `main`, `handleSignals` and `dumpStacks`.

Effects of the Go program (calls into the operating system, gRPC, the
snapshot driver, the logger) are recorded as an explicit trace; the
collaborators whose code lives outside the file are parameters of the
model.
-/

namespace OverlaybdSnapshotter

/-! ## Signals -/

/-- An `os.Signal` value; the daemon only ever sees `syscall.Signal`
numbers, so a signal is its number. -/
abbrev Signal := Nat

/-- Value of `unix.SIGINT` (Linux). -/
def SIGINT : Signal := 2
/-- Value of `unix.SIGUSR1` (Linux, generic architectures). -/
def SIGUSR1 : Signal := 10
/-- Value of `unix.SIGPIPE` (Linux). -/
def SIGPIPE : Signal := 13
/-- Value of `unix.SIGTERM` (Linux). -/
def SIGTERM : Signal := 15

/-- Observable actions of the signal goroutine started by `handleSignals`. -/
inductive SigEvent where
  /-- Call of `dumpStacks()` (line 110). -/
  | dumpStacks
  /-- Call of `server.Stop()` (line 119). -/
  | serverStop
  /-- Execution of `close(doneCh)` (lines 115 and 120). -/
  | closeDone
  deriving DecidableEq, Repr

/-- What one iteration of the `for` loop of `handleSignals` does with the
signal it received: the actions performed and whether the goroutine
returns (`exits = true`) or goes back to `<-signals`. -/
structure SigStep where
  events : List SigEvent
  exits : Bool
  deriving DecidableEq, Repr

/-- Body of the loop of `handleSignals` (lines 107-122) for the received
signal `s`; `serverNonNil` is the test `server != nil`. -/
def handleSignal (serverNonNil : Bool) (s : Signal) : SigStep :=
  if s = SIGUSR1 then
    { events := [SigEvent.dumpStacks], exits := false }
  else if s = SIGPIPE then
    { events := [], exits := false }
  else if serverNonNil = false then
    { events := [SigEvent.closeDone], exits := true }
  else
    { events := [SigEvent.serverStop, SigEvent.closeDone], exits := true }

/-- State of the signal goroutine after it has been offered a finite
sequence of signals. -/
structure SigRun where
  /-- Actions performed so far, oldest first. -/
  events : List SigEvent
  /-- The goroutine has returned; otherwise it is blocked in `<-signals`. -/
  exited : Bool
  /-- Signals of the sequence that were never received from the channel. -/
  unread : List Signal
  deriving DecidableEq, Repr

/-- The goroutine of `handleSignals` (lines 105-124) run against the queue
contents `signals`, in FIFO order. -/
def handleSignals (serverNonNil : Bool) : List Signal → SigRun
  | [] => { events := [], exited := false, unread := [] }
  | s :: rest =>
    let step := handleSignal serverNonNil s
    if step.exits then
      { events := step.events, exited := true, unread := rest }
    else
      let r := handleSignals serverNonNil rest
      { r with events := step.events ++ r.events }

/-- The signals `main` registers with `signal.Notify` (line 97). -/
def notifiedSignals : List Signal := [SIGTERM, SIGINT, SIGPIPE]

/-- The signals that have a `case` of their own in the `switch` of
`handleSignals` (lines 109 and 111). -/
def switchCaseSignals : List Signal := [SIGUSR1, SIGPIPE]

/-! ### Classification as the specification words it -/

/-- Signal classes of the specification. -/
inductive SignalClass where
  | Terminate
  | Diagnostic
  | Ignorable
  deriving DecidableEq, Repr

/-- Classification in the specification's words: broken pipe is ignorable,
the dump signal is diagnostic, everything else terminates. -/
def specClassify (s : Signal) : SignalClass :=
  if s = SIGPIPE then SignalClass.Ignorable
  else if s = SIGUSR1 then SignalClass.Diagnostic
  else SignalClass.Terminate

/-- What the specification prescribes for a signal of each class. -/
def specStep (serverNonNil : Bool) : SignalClass → SigStep
  | SignalClass.Ignorable => { events := [], exits := false }
  | SignalClass.Diagnostic => { events := [SigEvent.dumpStacks], exits := false }
  | SignalClass.Terminate =>
    { events := (if serverNonNil then [SigEvent.serverStop] else []) ++ [SigEvent.closeDone],
      exits := true }

/-! ## Stack dump -/

/-- A byte of a Go `[]byte`. -/
abbrev Byte := UInt8

/-- The call `runtime.Stack(buf, true)` for a stack trace whose full text is
`trace`: the first `min (len trace) (len buf)` bytes of the trace overwrite
the start of `buf`, and that count is returned. -/
def runtimeStack (trace : List Byte) (buf : List Byte) : List Byte × Nat :=
  let k := min trace.length buf.length
  (trace.take k ++ buf.drop k, k)

/-- Local variables of `dumpStacks`, with the history of capture attempts
(buffer length, captured size) kept as a ghost field. -/
structure DumpVars where
  buf : List Byte
  stackSize : Nat
  bufferLen : Nat
  attempts : List (Nat × Nat)
  deriving DecidableEq, Repr

/-- Variables at entry of the loop (lines 130-135): `buf` is nil,
`stackSize` is zero, `bufferLen` is 16384. -/
def dumpInit : DumpVars :=
  { buf := [], stackSize := 0, bufferLen := 16384, attempts := [] }

/-- The loop `for stackSize == len(buf) { ... }` (lines 136-140). Each unit
of fuel pays for one evaluation of the loop condition. Go's `int` is
modelled by `Nat`: a buffer is allocated before `bufferLen` is doubled, so
`bufferLen` never exceeds twice the size of an allocated buffer (see
`dumpLoop_bufferLen_le`). -/
def dumpLoop (trace : List Byte) : Nat → DumpVars → Option DumpVars
  | 0, _ => none
  | fuel + 1, v =>
    if v.stackSize = v.buf.length then
      let buf := List.replicate v.bufferLen (0 : Byte)
      let r := runtimeStack trace buf
      dumpLoop trace fuel
        { buf := r.1, stackSize := r.2, bufferLen := v.bufferLen * 2,
          attempts := v.attempts ++ [(v.bufferLen, r.2)] }
    else
      some v

/-- Result of `dumpStacks`: the bytes handed to the logger and the capture
attempts made. -/
structure Dump where
  logged : List Byte
  attempts : List (Nat × Nat)
  finalBufLen : Nat
  deriving DecidableEq, Repr

/-- `dumpStacks` (lines 129-144): run the capture loop, slice the buffer to
`buf[:stackSize]` and log it. -/
def dumpStacks (trace : List Byte) (fuel : Nat) : Option Dump :=
  (dumpLoop trace fuel dumpInit).map fun v =>
    { logged := v.buf.take v.stackSize, attempts := v.attempts, finalBufLen := v.buf.length }

/-! ## Configuration and collaborators -/

/-- The constant `defaultConfigPath` (line 24). -/
def defaultConfigPath : String := "/etc/overlaybd-snapshotter/config.json"

/-- The struct `pluginConfig` (lines 26-29). -/
structure pluginConfig where
  Address : String
  Root : String
  deriving DecidableEq, Repr

/-- A Go `error` value: `none` is `nil`, `some msg` an error with text `msg`. -/
abbrev GoError := Option String

/-- Library and driver calls of `main` whose results do not depend on the
socket directory: `ioutil.ReadFile`, `json.Unmarshal` into the zero-valued
global `pconfig`, `overlaybd.NewSnapshotter` (its error result) and
`filepath.Dir`. -/
structure Env where
  readFile : String → Except String String
  unmarshal : String → Except String pluginConfig
  newSnapshotter : String → GoError
  dir : String → String

/-- The operating-system calls that prepare the endpoint, over a state `σ`
of the outside world: `os.MkdirAll`, `os.RemoveAll` and `net.Listen`. Each
returns the state it leaves behind and its error result. -/
structure FileSys (σ : Type) where
  mkdirAll : σ → String → Nat → σ × GoError
  removeAll : σ → String → σ × GoError
  listen : σ → String → String → σ × GoError

/-- Go's `unicode.IsSpace`: the Latin-1 spaces and the code points with the
Unicode White_Space property. -/
def isSpace (c : Char) : Bool :=
  let n := c.toNat
  n = 0x09 || n = 0x0A || n = 0x0B || n = 0x0C || n = 0x0D || n = 0x20 ||
  n = 0x85 || n = 0xA0 || n = 0x1680 || (0x2000 ≤ n && n ≤ 0x200A) ||
  n = 0x2028 || n = 0x2029 || n = 0x202F || n = 0x205F || n = 0x3000

/-- Go's `strings.TrimSpace`: the string without its leading and trailing
white space. -/
def TrimSpace (s : String) : String :=
  String.mk ((s.data.dropWhile isSpace).reverse.dropWhile isSpace).reverse

/-- A string that is empty or consists only of white space. -/
def isBlank (s : String) : Bool := s.data.all isSpace

/-! ## The main function -/

/-- Observable actions of the process, in program order. -/
inductive Effect where
  /-- `ioutil.ReadFile(path)` (line 34). -/
  | readFile (path : String)
  /-- `logrus.Error` or `logrus.Errorf`. -/
  | logError
  /-- `logrus.Infof` (line 94). -/
  | logInfo
  /-- `os.Exit(code)`. -/
  | exit (code : Nat)
  /-- `overlaybd.NewSnapshotter(root)` (line 53). -/
  | newSnapshotter (root : String)
  /-- `sn.Close()`, the call deferred at line 58. -/
  | snClose
  /-- `grpc.NewServer()` (line 60). -/
  | newServer
  /-- `snapshotsapi.RegisterSnapshotsServer` (line 61). -/
  | registerService
  /-- `os.MkdirAll(path, perm)` (line 70). -/
  | mkdirAll (path : String) (perm : Nat)
  /-- `os.RemoveAll(path)` (line 76). -/
  | removeAll (path : String)
  /-- `net.Listen(network, address)` (line 81). -/
  | listen (network : String) (address : String)
  /-- Start of the goroutine running `srv.Serve(l)` (lines 87-92). -/
  | goServe
  /-- `signal.Notify(signals, sigs...)` (line 97). -/
  | notify (sigs : List Signal)
  /-- An action of the signal goroutine. -/
  | sig (e : SigEvent)
  /-- The receive `<-doneCh` of line 99 completes. -/
  | recvDone
  deriving DecidableEq, Repr

/-- How far the process has got. -/
inductive Status where
  /-- The process ended through `os.Exit(code)`. -/
  | exited (code : Nat)
  /-- Function `main` returned. -/
  | returned
  /-- Function `main` is blocked in `<-doneCh` while the server serves. -/
  | serving
  deriving DecidableEq, Repr

/-- Outcome of a run of the process: the effects performed, how far it got,
and the state in which the endpoint calls left the outside world. -/
structure Run (σ : Type) where
  trace : List Effect
  status : Status
  world : σ

/-- `parseConfig` (lines 33-43): the effect it performs and either the
wrapped error or the value stored into `pconfig`. -/
def parseConfig (env : Env) (fpath : String) : List Effect × Except String pluginConfig :=
  ([Effect.readFile fpath],
    match env.readFile fpath with
    | Except.error err =>
      Except.error ("failed to read plugin config from " ++ fpath ++ ": " ++ err)
    | Except.ok data =>
      match env.unmarshal data with
      | Except.error err =>
        Except.error ("failed to parse plugin config from " ++ data ++ ": " ++ err)
      | Except.ok cfg => Except.ok cfg)

/-- `main` (lines 46-100). `signals` is the sequence of signals the runtime
puts on the channel `signals`, in order. The goroutine of lines 87-92 is
recorded by its start only: the accept loop runs until `server.Stop`. The
call deferred at line 58 runs when `main` returns and is skipped by
`os.Exit`. -/
def main {σ : Type} (env : Env) (os : FileSys σ) (w : σ) (signals : List Signal) : Run σ :=
  let pc := parseConfig env defaultConfigPath
  match pc.2 with
  | Except.error _ =>
    { trace := pc.1 ++ [Effect.logError, Effect.exit 1], status := Status.exited 1, world := w }
  | Except.ok pconfig =>
    let t0 := pc.1 ++ [Effect.newSnapshotter pconfig.Root]
    match env.newSnapshotter pconfig.Root with
    | some _ =>
      { trace := t0 ++ [Effect.logError, Effect.exit 1], status := Status.exited 1, world := w }
    | none =>
      let t1 := t0 ++ [Effect.newServer, Effect.registerService]
      let address := TrimSpace pconfig.Address
      if address = "" then
        { trace := t1 ++ [Effect.logError, Effect.exit 1], status := Status.exited 1, world := w }
      else
        let t2 := t1 ++ [Effect.mkdirAll (env.dir address) 0o700]
        match os.mkdirAll w (env.dir address) 0o700 with
        | (w1, some _) =>
          { trace := t2 ++ [Effect.logError, Effect.exit 1], status := Status.exited 1,
            world := w1 }
        | (w1, none) =>
          let t3 := t2 ++ [Effect.removeAll address]
          match os.removeAll w1 address with
          | (w2, some _) =>
            { trace := t3 ++ [Effect.logError, Effect.exit 1], status := Status.exited 1,
              world := w2 }
          | (w2, none) =>
            let t4 := t3 ++ [Effect.listen "unix" address]
            match os.listen w2 "unix" address with
            | (w3, some _) =>
              { trace := t4 ++ [Effect.logError, Effect.exit 1], status := Status.exited 1,
                world := w3 }
            | (w3, none) =>
              let t5 := t4 ++ [Effect.goServe, Effect.logInfo, Effect.notify notifiedSignals]
              let r := handleSignals true signals
              let t6 := t5 ++ r.events.map Effect.sig
              if r.exited then
                { trace := t6 ++ [Effect.recvDone, Effect.snClose], status := Status.returned,
                  world := w3 }
              else
                { trace := t6, status := Status.serving, world := w3 }

/-! ## A model of the socket directory -/

/-- State of the part of the file system the daemon touches. Paths are
atomic names. -/
structure FS where
  /-- Directories that exist. -/
  dirs : List String
  /-- Files and sockets that exist. -/
  files : List String
  /-- Paths at which creating or removing an entry is refused. -/
  locked : List String
  deriving DecidableEq, Repr

/-- `os.MkdirAll`: no error when the directory already exists, an error when
the path is a file or may not be created, otherwise the directory is
created. -/
def FS.mkdirAll (fs : FS) (path : String) (_perm : Nat) : FS × GoError :=
  if path ∈ fs.dirs then (fs, none)
  else if path ∈ fs.files then (fs, some "not a directory")
  else if path ∈ fs.locked then (fs, some "permission denied")
  else ({ fs with dirs := path :: fs.dirs }, none)

/-- `os.RemoveAll`: no error when nothing exists at the path, an error when
the entry may not be removed, otherwise the entry is removed. -/
def FS.removeAll (fs : FS) (path : String) : FS × GoError :=
  if path ∉ fs.dirs ∧ path ∉ fs.files then (fs, none)
  else if path ∈ fs.locked then (fs, some "permission denied")
  else ({ fs with dirs := fs.dirs.filter (fun p => p ≠ path),
                  files := fs.files.filter (fun p => p ≠ path) }, none)

/-- `net.Listen("unix", path)` given the parent directory of the path: an
error when an entry already exists at the path (address already in use),
when the parent directory is missing or when the socket file may not be
created; otherwise the socket file is created. -/
def FS.listen (parent : String → String) (fs : FS) (_network : String) (path : String) :
    FS × GoError :=
  if path ∈ fs.dirs ∨ path ∈ fs.files then (fs, some "address already in use")
  else if parent path ∉ fs.dirs then (fs, some "no such file or directory")
  else if path ∈ fs.locked then (fs, some "permission denied")
  else ({ fs with files := path :: fs.files }, none)

/-- The operating-system calls of `main` over the model `FS`. -/
def unixFS (parent : String → String) : FileSys FS :=
  { mkdirAll := FS.mkdirAll, removeAll := FS.removeAll, listen := FS.listen parent }

/-- The effects that touch the endpoint: directory creation, removal of the
address path, binding the socket. -/
def Effect.isEndpoint : Effect → Bool
  | Effect.mkdirAll _ _ => true
  | Effect.removeAll _ => true
  | Effect.listen _ _ => true
  | _ => false

/-- The effects of a bootstrap that reaches the accept loop, for the
configuration `cfg` (lines 48-97 with every call succeeding). -/
def bootTrace (env : Env) (cfg : pluginConfig) : List Effect :=
  [Effect.readFile defaultConfigPath, Effect.newSnapshotter cfg.Root, Effect.newServer,
   Effect.registerService,
   Effect.mkdirAll (env.dir (TrimSpace cfg.Address)) 0o700,
   Effect.removeAll (TrimSpace cfg.Address),
   Effect.listen "unix" (TrimSpace cfg.Address),
   Effect.goServe, Effect.logInfo, Effect.notify notifiedSignals]

/-! ## Sample inputs -/

/-- `filepath.Dir` on a path that is already clean: everything before the
last separator, `/` when that is empty, `.` when there is no separator. -/
def dirOfCleanPath (p : String) : String :=
  if '/' ∈ p.data then
    let d := ((p.data.reverse.dropWhile (fun c => c ≠ '/')).drop 1).reverse
    if d = [] then "/" else String.mk d
  else "."

/-- An environment whose config file read, parse and driver creation have
the given results. -/
def sampleEnv (file : Except String String) (cfg : Except String pluginConfig)
    (driver : GoError) : Env :=
  { readFile := fun _ => file, unmarshal := fun _ => cfg,
    newSnapshotter := fun _ => driver, dir := dirOfCleanPath }

/-- The configuration of the specification's scenario. -/
def svcConfig : pluginConfig := { Address := "/run/svc/svc.sock", Root := "/var/lib/svc" }

/-- A configuration whose address is white space only. -/
def blankConfig : pluginConfig := { Address := " \t ", Root := "/var/lib/svc" }

/-- An environment in which the config file holds `cfg` and the driver
starts. -/
def goodEnv (cfg : pluginConfig) : Env :=
  sampleEnv (Except.ok "config") (Except.ok cfg) none

/-- A file system with nothing in it and nothing refused. -/
def emptyFS : FS := { dirs := [], files := [], locked := [] }

/-- A file system in which `/run/svc` may not be created. -/
def lockedDirFS : FS := { dirs := [], files := [], locked := ["/run/svc"] }

/-- A file system with a stale socket that may not be removed. -/
def lockedSockFS : FS :=
  { dirs := ["/run/svc"], files := ["/run/svc/svc.sock"], locked := ["/run/svc/svc.sock"] }

/-- A file system in which the socket may not be created. -/
def lockedBindFS : FS :=
  { dirs := ["/run/svc"], files := [], locked := ["/run/svc/svc.sock"] }

/-! # Theorems -/

/-! ## The signal goroutine -/

theorem handleSignals_nil (b : Bool) :
    handleSignals b [] = { events := [], exited := false, unread := [] } := rfl

theorem handleSignals_usr1 (b : Bool) (rest : List Signal) :
    handleSignals b (SIGUSR1 :: rest) =
      { handleSignals b rest with
        events := SigEvent.dumpStacks :: (handleSignals b rest).events } := by
  simp [handleSignals, handleSignal]

theorem handleSignals_pipe (b : Bool) (rest : List Signal) :
    handleSignals b (SIGPIPE :: rest) = handleSignals b rest := by
  simp [handleSignals, handleSignal, SIGPIPE, SIGUSR1]

theorem handleSignals_stop (s : Signal) (rest : List Signal)
    (h1 : s ≠ SIGUSR1) (h2 : s ≠ SIGPIPE) :
    handleSignals true (s :: rest) =
      { events := [SigEvent.serverStop, SigEvent.closeDone], exited := true, unread := rest } := by
  simp [handleSignals, handleSignal, h1, h2]

theorem handleSignals_stop_nil_server (s : Signal) (rest : List Signal)
    (h1 : s ≠ SIGUSR1) (h2 : s ≠ SIGPIPE) :
    handleSignals false (s :: rest) =
      { events := [SigEvent.closeDone], exited := true, unread := rest } := by
  simp [handleSignals, handleSignal, h1, h2]

/-- Run of the goroutine on a sequence made of ignorable and diagnostic
signals followed by one other signal: one dump per SIGUSR1, then stop and
close, and the tail stays unread. -/
theorem handleSignals_append_stop (pre : List Signal) (s : Signal) (post : List Signal)
    (hpre : ∀ x ∈ pre, x = SIGUSR1 ∨ x = SIGPIPE) (h1 : s ≠ SIGUSR1) (h2 : s ≠ SIGPIPE) :
    handleSignals true (pre ++ s :: post) =
      { events := List.replicate (pre.count SIGUSR1) SigEvent.dumpStacks ++
          [SigEvent.serverStop, SigEvent.closeDone],
        exited := true, unread := post } := by
  induction pre with
  | nil => simpa using handleSignals_stop s post h1 h2
  | cons x xs ih =>
    have hxs : ∀ y ∈ xs, y = SIGUSR1 ∨ y = SIGPIPE := fun y hy =>
      hpre y (List.mem_cons_of_mem _ hy)
    rcases hpre x (List.mem_cons_self _ _) with hx | hx
    · subst hx
      rw [List.cons_append, handleSignals_usr1, ih hxs]
      simp [List.replicate_succ]
    · subst hx
      rw [List.cons_append, handleSignals_pipe, ih hxs]
      have : SIGPIPE ≠ SIGUSR1 := by decide
      simp [List.count_cons, this]

/-- Run of the goroutine on a sequence made only of ignorable and
diagnostic signals. -/
theorem handleSignals_quiet (b : Bool) (signals : List Signal)
    (h : ∀ x ∈ signals, x = SIGUSR1 ∨ x = SIGPIPE) :
    handleSignals b signals =
      { events := List.replicate (signals.count SIGUSR1) SigEvent.dumpStacks,
        exited := false, unread := [] } := by
  induction signals with
  | nil => rfl
  | cons x xs ih =>
    have hxs : ∀ y ∈ xs, y = SIGUSR1 ∨ y = SIGPIPE := fun y hy =>
      h y (List.mem_cons_of_mem _ hy)
    rcases h x (List.mem_cons_self _ _) with hx | hx
    · subst hx
      rw [handleSignals_usr1, ih hxs]
      simp [List.replicate_succ]
    · subst hx
      rw [handleSignals_pipe, ih hxs]
      have : SIGPIPE ≠ SIGUSR1 := by decide
      simp [List.count_cons, this]

/-- Every sequence of signals either has no terminating signal or splits at
its first terminating signal. -/
theorem signals_split (signals : List Signal) :
    (∀ x ∈ signals, x = SIGUSR1 ∨ x = SIGPIPE) ∨
    ∃ pre s post, signals = pre ++ s :: post ∧
      (∀ x ∈ pre, x = SIGUSR1 ∨ x = SIGPIPE) ∧ s ≠ SIGUSR1 ∧ s ≠ SIGPIPE := by
  induction signals with
  | nil => left; simp
  | cons x xs ih =>
    by_cases hx : x = SIGUSR1 ∨ x = SIGPIPE
    · rcases ih with hq | ⟨pre, s, post, rfl, hpre, h1, h2⟩
      · left
        intro y hy
        rcases List.mem_cons.1 hy with rfl | hy
        · exact hx
        · exact hq y hy
      · right
        refine ⟨x :: pre, s, post, rfl, ?_, h1, h2⟩
        intro y hy
        rcases List.mem_cons.1 hy with rfl | hy
        · exact hx
        · exact hpre y hy
    · right
      refine ⟨[], x, xs, rfl, by simp, ?_, ?_⟩
      · exact fun h => hx (Or.inl h)
      · exact fun h => hx (Or.inr h)

/-- C1: for every finite sequence of signals delivered to `handleSignals`
with a non-nil server, `server.Stop` is invoked at most once and `doneCh` is
closed at most once; both happen exactly once when the sequence contains a
signal that is neither SIGUSR1 nor SIGPIPE; and the signals after the first
such signal are never received. -/
theorem handleSignals_stops_once (signals : List Signal) :
    (handleSignals true signals).events.count SigEvent.serverStop ≤ 1 ∧
    (handleSignals true signals).events.count SigEvent.closeDone ≤ 1 ∧
    ((∃ s ∈ signals, s ≠ SIGUSR1 ∧ s ≠ SIGPIPE) →
      (handleSignals true signals).events.count SigEvent.serverStop = 1 ∧
      (handleSignals true signals).events.count SigEvent.closeDone = 1 ∧
      (handleSignals true signals).exited = true) ∧
    (∀ pre s post, signals = pre ++ s :: post →
      (∀ x ∈ pre, x = SIGUSR1 ∨ x = SIGPIPE) → s ≠ SIGUSR1 → s ≠ SIGPIPE →
      (handleSignals true signals).unread = post) := by
  rcases signals_split signals with hq | ⟨pre, s, post, rfl, hpre, h1, h2⟩
  · rw [handleSignals_quiet true signals hq]
    refine ⟨by simp [List.count_replicate], by simp [List.count_replicate], ?_, ?_⟩
    · rintro ⟨s, hs, h1, h2⟩
      rcases hq s hs with h | h
      · exact absurd h h1
      · exact absurd h h2
    · rintro pre s post rfl _ h1 h2
      rcases hq s (by simp) with h | h
      · exact absurd h h1
      · exact absurd h h2
  · refine ⟨?_, ?_, ?_, ?_⟩
    · rw [handleSignals_append_stop pre s post hpre h1 h2]
      simp [List.count_append, List.count_replicate, List.count_cons]
    · rw [handleSignals_append_stop pre s post hpre h1 h2]
      simp [List.count_append, List.count_replicate, List.count_cons]
    · intro _
      rw [handleSignals_append_stop pre s post hpre h1 h2]
      simp [List.count_append, List.count_replicate, List.count_cons]
    · intro pre2 s2 post2 heq hpre2 h12 h22
      rw [heq, handleSignals_append_stop pre2 s2 post2 hpre2 h12 h22]

/-- C1 at a burst of terminate signals after a dump and a broken pipe. -/
theorem handleSignals_stops_once_witness :
    (handleSignals true [SIGUSR1, SIGPIPE, SIGTERM, SIGTERM, SIGINT]).events.count
        SigEvent.serverStop = 1 ∧
    (handleSignals true [SIGUSR1, SIGPIPE, SIGTERM, SIGTERM, SIGINT]).events.count
        SigEvent.closeDone = 1 ∧
    (handleSignals true [SIGUSR1, SIGPIPE, SIGTERM, SIGTERM, SIGINT]).exited = true :=
  (handleSignals_stops_once [SIGUSR1, SIGPIPE, SIGTERM, SIGTERM, SIGINT]).2.2.1
    ⟨SIGTERM, by decide, by decide, by decide⟩

/-- C2: the switch of `handleSignals` handles a signal as ignorable exactly
when it is SIGPIPE, as diagnostic exactly when it is SIGUSR1, and as a
terminate request otherwise; on a terminate request it calls `server.Stop`
when the server is non-nil and skips it when the server is nil, closes
`doneCh` once and leaves the loop. The step taken is the one the
specification prescribes for the signal's class. -/
theorem handleSignal_classification (s : Signal) :
    (∀ b, handleSignal b s = { events := [], exits := false } ↔ s = SIGPIPE) ∧
    (∀ b, handleSignal b s = { events := [SigEvent.dumpStacks], exits := false } ↔
      s = SIGUSR1) ∧
    (∀ b, (handleSignal b s).exits = true ↔ (s ≠ SIGPIPE ∧ s ≠ SIGUSR1)) ∧
    (s ≠ SIGPIPE → s ≠ SIGUSR1 → ∀ rest,
      handleSignals true (s :: rest) =
        { events := [SigEvent.serverStop, SigEvent.closeDone], exited := true,
          unread := rest } ∧
      handleSignals false (s :: rest) =
        { events := [SigEvent.closeDone], exited := true, unread := rest }) ∧
    (∀ b, handleSignal b s = specStep b (specClassify s)) := by
  have hne : SIGPIPE ≠ SIGUSR1 := by decide
  refine ⟨?_, ?_, ?_, ?_, ?_⟩
  · intro b
    by_cases h1 : s = SIGUSR1
    · subst h1; simp [handleSignal, hne.symm]
    · by_cases h2 : s = SIGPIPE
      · subst h2; simp [handleSignal, hne]
      · cases b <;> simp [handleSignal, h1, h2]
  · intro b
    by_cases h1 : s = SIGUSR1
    · subst h1; simp [handleSignal]
    · by_cases h2 : s = SIGPIPE
      · subst h2; simp [handleSignal, hne]
      · cases b <;> simp [handleSignal, h1, h2]
  · intro b
    by_cases h1 : s = SIGUSR1
    · subst h1; simp [handleSignal]
    · by_cases h2 : s = SIGPIPE
      · subst h2; simp [handleSignal, hne]
      · cases b <;> simp [handleSignal, h1, h2]
  · intro h2 h1 rest
    exact ⟨handleSignals_stop s rest h1 h2, handleSignals_stop_nil_server s rest h1 h2⟩
  · intro b
    by_cases h1 : s = SIGUSR1
    · subst h1; simp [handleSignal, specStep, specClassify, hne.symm]
    · by_cases h2 : s = SIGPIPE
      · subst h2; simp [handleSignal, specStep, specClassify, hne]
      · cases b <;> simp [handleSignal, specStep, specClassify, h1, h2]

/-- C2 at SIGTERM, SIGINT and an unrecognised signal (SIGHUP, number 1). -/
theorem handleSignal_classification_witness :
    (handleSignals true [SIGTERM, SIGINT] =
        { events := [SigEvent.serverStop, SigEvent.closeDone], exited := true,
          unread := [SIGINT] } ∧
      handleSignals false [SIGTERM, SIGINT] =
        { events := [SigEvent.closeDone], exited := true, unread := [SIGINT] }) ∧
    (handleSignals true [1] =
        { events := [SigEvent.serverStop, SigEvent.closeDone], exited := true,
          unread := [] } ∧
      handleSignals false [1] =
        { events := [SigEvent.closeDone], exited := true, unread := [] }) :=
  ⟨(handleSignal_classification SIGTERM).2.2.2.1 (by decide) (by decide) [SIGINT],
    (handleSignal_classification 1).2.2.2.1 (by decide) (by decide) []⟩

/-- C3: after the goroutine has consumed a sequence made only of SIGPIPE and
SIGUSR1, `server.Stop` has not been called, `doneCh` has not been closed,
the goroutine is still waiting for the next signal with nothing left
unread, and `dumpStacks` has run once per SIGUSR1 and never for a SIGPIPE. -/
theorem handleSignals_keeps_serving (b : Bool) (signals : List Signal)
    (h : ∀ s ∈ signals, s = SIGPIPE ∨ s = SIGUSR1) :
    (handleSignals b signals).events.count SigEvent.serverStop = 0 ∧
    (handleSignals b signals).events.count SigEvent.closeDone = 0 ∧
    (handleSignals b signals).exited = false ∧
    (handleSignals b signals).unread = [] ∧
    (handleSignals b signals).events =
      List.replicate (signals.count SIGUSR1) SigEvent.dumpStacks ∧
    (handleSignals b signals).events.count SigEvent.dumpStacks = signals.count SIGUSR1 := by
  have hq : ∀ x ∈ signals, x = SIGUSR1 ∨ x = SIGPIPE := fun x hx => (h x hx).symm
  rw [handleSignals_quiet b signals hq]
  simp [List.count_replicate]

/-- C3 at two dump requests between three broken pipes. -/
theorem handleSignals_keeps_serving_witness :
    (handleSignals true [SIGPIPE, SIGUSR1, SIGPIPE, SIGUSR1, SIGPIPE]).events.count
        SigEvent.serverStop = 0 ∧
    (handleSignals true [SIGPIPE, SIGUSR1, SIGPIPE, SIGUSR1, SIGPIPE]).events.count
        SigEvent.closeDone = 0 ∧
    (handleSignals true [SIGPIPE, SIGUSR1, SIGPIPE, SIGUSR1, SIGPIPE]).exited = false ∧
    (handleSignals true [SIGPIPE, SIGUSR1, SIGPIPE, SIGUSR1, SIGPIPE]).unread = [] ∧
    (handleSignals true [SIGPIPE, SIGUSR1, SIGPIPE, SIGUSR1, SIGPIPE]).events =
      List.replicate ([SIGPIPE, SIGUSR1, SIGPIPE, SIGUSR1, SIGPIPE].count SIGUSR1)
        SigEvent.dumpStacks ∧
    (handleSignals true [SIGPIPE, SIGUSR1, SIGPIPE, SIGUSR1, SIGPIPE]).events.count
        SigEvent.dumpStacks = [SIGPIPE, SIGUSR1, SIGPIPE, SIGUSR1, SIGPIPE].count SIGUSR1 :=
  handleSignals_keeps_serving true [SIGPIPE, SIGUSR1, SIGPIPE, SIGUSR1, SIGPIPE]
    (by decide)

/-- C4: the signal set registered by `main` holds SIGTERM, SIGINT and
SIGPIPE only; SIGUSR1, which has a case of its own in the switch of
`handleSignals`, is not registered, so the runtime never puts it on the
queue. -/
theorem notifiedSignals_lacks_SIGUSR1 :
    SIGUSR1 ∈ switchCaseSignals ∧ SIGUSR1 ∉ notifiedSignals ∧
    ¬ (∀ s ∈ switchCaseSignals, s ∈ notifiedSignals) ∧
    (∀ s ∈ notifiedSignals, s = SIGTERM ∨ s = SIGINT ∨ s = SIGPIPE) := by
  decide

/-! ## The stack dump -/

/-- A capture into a buffer longer than the trace ends the loop. -/
theorem dumpLoop_exit (trace : List Byte) (fuel : Nat) (v : DumpVars)
    (hinv : v.stackSize = v.buf.length) (hlt : trace.length < v.bufferLen) :
    dumpLoop trace (fuel + 2) v =
      some { buf := trace ++ List.replicate (v.bufferLen - trace.length) (0 : Byte),
             stackSize := trace.length, bufferLen := v.bufferLen * 2,
             attempts := v.attempts ++ [(v.bufferLen, trace.length)] } := by
  have hmin : min trace.length v.bufferLen = trace.length := Nat.min_eq_left hlt.le
  have hne : ¬ trace.length = trace.length + (v.bufferLen - trace.length) := by omega
  simp [dumpLoop, hinv, runtimeStack, hmin, hne]

/-- A capture into a buffer no longer than the trace fills the buffer and
the loop goes round again. -/
theorem dumpLoop_retry (trace : List Byte) (fuel : Nat) (v : DumpVars)
    (hinv : v.stackSize = v.buf.length) (hle : v.bufferLen ≤ trace.length) :
    dumpLoop trace (fuel + 1) v =
      dumpLoop trace fuel
        { buf := trace.take v.bufferLen, stackSize := v.bufferLen,
          bufferLen := v.bufferLen * 2,
          attempts := v.attempts ++ [(v.bufferLen, v.bufferLen)] } := by
  have hmin : min trace.length v.bufferLen = v.bufferLen := Nat.min_eq_right hle
  simp [dumpLoop, hinv, runtimeStack, hmin]

/-- The loop from a state whose buffer is full, when `k` doublings of
`bufferLen` are needed to exceed the length of the trace. -/
theorem dumpLoop_run (trace : List Byte) (k : Nat) :
    ∀ (v : DumpVars) (fuel : Nat), v.stackSize = v.buf.length →
      (∀ j, j < k → v.bufferLen * 2 ^ j ≤ trace.length) →
      trace.length < v.bufferLen * 2 ^ k →
      dumpLoop trace (fuel + k + 2) v =
        some { buf := trace ++
                 List.replicate (v.bufferLen * 2 ^ k - trace.length) (0 : Byte),
               stackSize := trace.length, bufferLen := v.bufferLen * 2 ^ (k + 1),
               attempts := v.attempts ++ (List.range (k + 1)).map fun i =>
                 (v.bufferLen * 2 ^ i, min trace.length (v.bufferLen * 2 ^ i)) } := by
  induction k with
  | zero =>
    intro v fuel hinv _ hlt
    have hlt' : trace.length < v.bufferLen := by simpa using hlt
    have hmin : min trace.length v.bufferLen = trace.length := Nat.min_eq_left hlt'.le
    rw [Nat.add_zero, dumpLoop_exit trace fuel v hinv hlt']
    simp [hmin, List.range_succ]
  | succ k ih =>
    intro v fuel hinv hle hlt
    have h0 : v.bufferLen ≤ trace.length := by simpa using hle 0 (Nat.succ_pos k)
    have hmin : min trace.length v.bufferLen = v.bufferLen := Nat.min_eq_right h0
    have hfuel : fuel + (k + 1) + 2 = (fuel + k + 2) + 1 := by omega
    rw [hfuel, dumpLoop_retry trace (fuel + k + 2) v hinv h0]
    rw [ih _ fuel (by simp [List.length_take, h0])
      (by
        intro j hj
        have := hle (j + 1) (Nat.succ_lt_succ hj)
        simpa [pow_succ, Nat.mul_comm, Nat.mul_left_comm, Nat.mul_assoc] using this)
      (by simpa [pow_succ, Nat.mul_comm, Nat.mul_left_comm, Nat.mul_assoc] using hlt)]
    have hr : List.range (k + 1 + 1) = 0 :: (List.range (k + 1)).map Nat.succ :=
      List.range_succ_eq_map (k + 1)
    simp only [hr, List.map_cons, List.map_map, pow_zero, Nat.mul_one, hmin,
      List.append_assoc, List.singleton_append]
    congr 2
    · simp [pow_succ, Nat.mul_comm, Nat.mul_left_comm, Nat.mul_assoc]
    · simp [pow_succ, Nat.mul_comm, Nat.mul_left_comm, Nat.mul_assoc]
    · congr 2
      apply List.map_congr_left
      intro i _
      simp [Function.comp, pow_succ, Nat.mul_comm, Nat.mul_left_comm, Nat.mul_assoc]

/-- The values `bufferLen` takes stay within four times the trace length
(or 32768 for a short trace), so for a trace that fits in memory the
doubling of line 139 stays far below the range of a 64-bit `int`. -/
theorem dumpLoop_bufferLen_le (trace : List Byte) (k fuel : Nat)
    (hle : ∀ j, j < k → 16384 * 2 ^ j ≤ trace.length)
    (hlt : trace.length < 16384 * 2 ^ k) :
    ∃ v, dumpLoop trace (fuel + k + 2) dumpInit = some v ∧
      v.bufferLen ≤ max 32768 (4 * trace.length) := by
  refine ⟨_, dumpLoop_run trace k dumpInit fuel rfl hle hlt, ?_⟩
  change 16384 * 2 ^ (k + 1) ≤ max 32768 (4 * trace.length)
  cases k with
  | zero => simp
  | succ m =>
    have h1 := hle m (Nat.lt_succ_self m)
    have h2 : 16384 * 2 ^ (m + 1 + 1) = 4 * (16384 * 2 ^ m) := by ring
    rw [h2]
    exact le_max_of_le_right (Nat.mul_le_mul_left 4 h1)

/-- Some doubling of the first buffer length exceeds any trace length. -/
theorem exists_buffer_gt (n : Nat) : ∃ k, n < 16384 * 2 ^ k := by
  refine ⟨n, ?_⟩
  have h1 : n < 2 ^ n := Nat.lt_two_pow n
  have h2 : 2 ^ n ≤ 16384 * 2 ^ n := Nat.le_mul_of_pos_left _ (by decide)
  omega

/-- The result of `dumpStacks` once the loop has stopped after `k` retries. -/
theorem dumpStacks_run (trace : List Byte) (k fuel : Nat)
    (hle : ∀ j, j < k → 16384 * 2 ^ j ≤ trace.length)
    (hlt : trace.length < 16384 * 2 ^ k) (hfuel : k + 2 ≤ fuel) :
    dumpStacks trace fuel =
      some { logged := trace,
             attempts := (List.range (k + 1)).map fun i =>
               (16384 * 2 ^ i, min trace.length (16384 * 2 ^ i)),
             finalBufLen := 16384 * 2 ^ k } := by
  obtain ⟨f, rfl⟩ : ∃ f, fuel = f + k + 2 := ⟨fuel - (k + 2), by omega⟩
  have h := dumpLoop_run trace k dumpInit f rfl hle hlt
  have hlen : trace.length + (16384 * 2 ^ k - trace.length) = 16384 * 2 ^ k := by omega
  unfold dumpStacks
  rw [h]
  simp [dumpInit, hlen]

/-- C5: with `runtime.Stack` writing the first `min n (len buf)` bytes of a
fixed trace of `n` bytes, the capture loop of `dumpStacks` terminates for
every trace. Its attempts use buffers of 16384, 32768, ... bytes, each
double the one before; an attempt is followed by another exactly when it
filled its buffer; the last buffer is the least `16384 * 2 ^ k` strictly
longer than the trace, the captured size is strictly below it, and the dump
handed to the logger is the whole trace. A trace shorter than 16384 bytes is
captured in one attempt. -/
theorem dumpStacks_captures_whole_trace (trace : List Byte) :
    ∃ k,
      (∀ fuel, k + 2 ≤ fuel →
        dumpStacks trace fuel =
          some { logged := trace,
                 attempts := (List.range (k + 1)).map fun i =>
                   (16384 * 2 ^ i, min trace.length (16384 * 2 ^ i)),
                 finalBufLen := 16384 * 2 ^ k }) ∧
      trace.length < 16384 * 2 ^ k ∧
      (∀ j, j < k → 16384 * 2 ^ j ≤ trace.length) ∧
      (∀ i, i ≤ k → (min trace.length (16384 * 2 ^ i) = 16384 * 2 ^ i ↔ i < k)) ∧
      (trace.length < 16384 → k = 0) := by
  classical
  have hex := exists_buffer_gt trace.length
  have hlt : trace.length < 16384 * 2 ^ Nat.find hex := Nat.find_spec hex
  have hle : ∀ j, j < Nat.find hex → 16384 * 2 ^ j ≤ trace.length := fun j hj =>
    Nat.le_of_not_lt (Nat.find_min hex hj)
  refine ⟨Nat.find hex, ?_, hlt, hle, ?_, ?_⟩
  · intro fuel hfuel
    exact dumpStacks_run trace (Nat.find hex) fuel hle hlt hfuel
  · intro i hi
    constructor
    · intro hfull
      rcases Nat.lt_or_ge i (Nat.find hex) with h | h
      · exact h
      · have hik : i = Nat.find hex := Nat.le_antisymm hi h
        rw [hik] at hfull
        have := Nat.min_le_left trace.length (16384 * 2 ^ Nat.find hex)
        omega
    · intro h
      exact Nat.min_eq_right (hle i h)
  · intro hsmall
    by_contra hk
    have := hle 0 (Nat.pos_of_ne_zero hk)
    simp at this
    omega

/-! ## Bootstrap -/

/-- A string of white space trims to the empty string. -/
theorem TrimSpace_of_isBlank (s : String) (h : isBlank s = true) : TrimSpace s = "" := by
  have hd : s.data.dropWhile isSpace = [] := by
    rw [List.dropWhile_eq_nil_iff]
    intro c hc
    exact List.all_eq_true.1 h c hc
  simp [TrimSpace, hd]

/-- The test of line 65 succeeds exactly for the strings that are empty or
white space only. -/
theorem TrimSpace_eq_empty_iff (s : String) : TrimSpace s = "" ↔ isBlank s = true := by
  constructor
  · intro h
    have h1 : ((s.data.dropWhile isSpace).reverse.dropWhile isSpace).reverse = [] := by
      have := congrArg String.data h
      simpa [TrimSpace] using this
    have h2 : (s.data.dropWhile isSpace).reverse.dropWhile isSpace = [] := by
      simpa using h1
    rw [List.dropWhile_eq_nil_iff] at h2
    have h3 : s.data.dropWhile isSpace = [] := by
      by_contra hne
      have hhead := List.head_dropWhile_not isSpace s.data hne
      have hmem : (s.data.dropWhile isSpace).head hne ∈ (s.data.dropWhile isSpace).reverse :=
        List.mem_reverse.2 (List.head_mem hne)
      have := h2 _ hmem
      simp [this] at hhead
    rw [List.dropWhile_eq_nil_iff] at h3
    exact List.all_eq_true.2 h3
  · exact TrimSpace_of_isBlank s

/-- The result of `parseConfig` read off the two library calls. -/
theorem parseConfig_ok (env : Env) (fpath : String) (cfg : pluginConfig) :
    (parseConfig env fpath).2 = Except.ok cfg ↔
      ∃ data, env.readFile fpath = Except.ok data ∧ env.unmarshal data = Except.ok cfg := by
  unfold parseConfig
  cases h1 : env.readFile fpath with
  | error e => simp
  | ok data =>
    cases h2 : env.unmarshal data with
    | error e => simp [h2]
    | ok c => simp [h2]

theorem parseConfig_effects (env : Env) (fpath : String) :
    (parseConfig env fpath).1 = [Effect.readFile fpath] := rfl

/-- Outcome of `main` when the config cannot be loaded. -/
theorem main_config_error {σ : Type} (env : Env) (os : FileSys σ) (w : σ)
    (signals : List Signal) (e : String)
    (h : (parseConfig env defaultConfigPath).2 = Except.error e) :
    main env os w signals =
      { trace := [Effect.readFile defaultConfigPath, Effect.logError, Effect.exit 1],
        status := Status.exited 1, world := w } := by
  simp [main, h, parseConfig_effects]

/-- Outcome of `main` when the driver cannot be created. -/
theorem main_driver_error {σ : Type} (env : Env) (os : FileSys σ) (w : σ)
    (signals : List Signal) (cfg : pluginConfig) (e : String)
    (h : (parseConfig env defaultConfigPath).2 = Except.ok cfg)
    (hd : env.newSnapshotter cfg.Root = some e) :
    main env os w signals =
      { trace := [Effect.readFile defaultConfigPath, Effect.newSnapshotter cfg.Root,
          Effect.logError, Effect.exit 1],
        status := Status.exited 1, world := w } := by
  simp [main, h, hd, parseConfig_effects]

/-- Outcome of `main` when the trimmed address is empty. -/
theorem main_address_error {σ : Type} (env : Env) (os : FileSys σ) (w : σ)
    (signals : List Signal) (cfg : pluginConfig)
    (h : (parseConfig env defaultConfigPath).2 = Except.ok cfg)
    (hd : env.newSnapshotter cfg.Root = none) (ha : TrimSpace cfg.Address = "") :
    main env os w signals =
      { trace := [Effect.readFile defaultConfigPath, Effect.newSnapshotter cfg.Root,
          Effect.newServer, Effect.registerService, Effect.logError, Effect.exit 1],
        status := Status.exited 1, world := w } := by
  simp [main, h, hd, ha, parseConfig_effects]

/-- Outcome of `main` when the parent directory cannot be created. -/
theorem main_mkdir_error {σ : Type} (env : Env) (os : FileSys σ) (w : σ)
    (signals : List Signal) (cfg : pluginConfig) (w1 : σ) (e : String)
    (h : (parseConfig env defaultConfigPath).2 = Except.ok cfg)
    (hd : env.newSnapshotter cfg.Root = none) (ha : TrimSpace cfg.Address ≠ "")
    (hm : os.mkdirAll w (env.dir (TrimSpace cfg.Address)) 0o700 = (w1, some e)) :
    main env os w signals =
      { trace := [Effect.readFile defaultConfigPath, Effect.newSnapshotter cfg.Root,
          Effect.newServer, Effect.registerService,
          Effect.mkdirAll (env.dir (TrimSpace cfg.Address)) 0o700,
          Effect.logError, Effect.exit 1],
        status := Status.exited 1, world := w1 } := by
  simp [main, h, hd, ha, hm, parseConfig_effects]

/-- Outcome of `main` when the address path cannot be removed. -/
theorem main_remove_error {σ : Type} (env : Env) (os : FileSys σ) (w : σ)
    (signals : List Signal) (cfg : pluginConfig) (w1 w2 : σ) (e : String)
    (h : (parseConfig env defaultConfigPath).2 = Except.ok cfg)
    (hd : env.newSnapshotter cfg.Root = none) (ha : TrimSpace cfg.Address ≠ "")
    (hm : os.mkdirAll w (env.dir (TrimSpace cfg.Address)) 0o700 = (w1, none))
    (hr : os.removeAll w1 (TrimSpace cfg.Address) = (w2, some e)) :
    main env os w signals =
      { trace := [Effect.readFile defaultConfigPath, Effect.newSnapshotter cfg.Root,
          Effect.newServer, Effect.registerService,
          Effect.mkdirAll (env.dir (TrimSpace cfg.Address)) 0o700,
          Effect.removeAll (TrimSpace cfg.Address),
          Effect.logError, Effect.exit 1],
        status := Status.exited 1, world := w2 } := by
  simp [main, h, hd, ha, hm, hr, parseConfig_effects]

/-- Outcome of `main` when the socket cannot be bound. -/
theorem main_listen_error {σ : Type} (env : Env) (os : FileSys σ) (w : σ)
    (signals : List Signal) (cfg : pluginConfig) (w1 w2 w3 : σ) (e : String)
    (h : (parseConfig env defaultConfigPath).2 = Except.ok cfg)
    (hd : env.newSnapshotter cfg.Root = none) (ha : TrimSpace cfg.Address ≠ "")
    (hm : os.mkdirAll w (env.dir (TrimSpace cfg.Address)) 0o700 = (w1, none))
    (hr : os.removeAll w1 (TrimSpace cfg.Address) = (w2, none))
    (hl : os.listen w2 "unix" (TrimSpace cfg.Address) = (w3, some e)) :
    main env os w signals =
      { trace := [Effect.readFile defaultConfigPath, Effect.newSnapshotter cfg.Root,
          Effect.newServer, Effect.registerService,
          Effect.mkdirAll (env.dir (TrimSpace cfg.Address)) 0o700,
          Effect.removeAll (TrimSpace cfg.Address),
          Effect.listen "unix" (TrimSpace cfg.Address),
          Effect.logError, Effect.exit 1],
        status := Status.exited 1, world := w3 } := by
  simp [main, h, hd, ha, hm, hr, hl, parseConfig_effects]

/-- Outcome of `main` when every bootstrap step succeeds. -/
theorem main_booted {σ : Type} (env : Env) (os : FileSys σ) (w : σ)
    (signals : List Signal) (cfg : pluginConfig) (w1 w2 w3 : σ)
    (h : (parseConfig env defaultConfigPath).2 = Except.ok cfg)
    (hd : env.newSnapshotter cfg.Root = none) (ha : TrimSpace cfg.Address ≠ "")
    (hm : os.mkdirAll w (env.dir (TrimSpace cfg.Address)) 0o700 = (w1, none))
    (hr : os.removeAll w1 (TrimSpace cfg.Address) = (w2, none))
    (hl : os.listen w2 "unix" (TrimSpace cfg.Address) = (w3, none)) :
    main env os w signals =
      { trace := bootTrace env cfg ++ (handleSignals true signals).events.map Effect.sig ++
          (if (handleSignals true signals).exited then [Effect.recvDone, Effect.snClose]
           else []),
        status := if (handleSignals true signals).exited then Status.returned
          else Status.serving,
        world := w3 } := by
  cases hx : (handleSignals true signals).exited <;>
    simp [main, h, hd, ha, hm, hr, hl, hx, parseConfig_effects, bootTrace]

/-- An exit through `os.Exit` never runs the deferred `sn.Close()`, and the
exit status is 1; a return of `main` runs it once. -/
theorem main_close_by_status {σ : Type} (env : Env) (os : FileSys σ) (w : σ)
    (signals : List Signal) :
    (∀ c, (main env os w signals).status = Status.exited c →
      c = 1 ∧ Effect.snClose ∉ (main env os w signals).trace) ∧
    ((main env os w signals).status = Status.returned →
      (main env os w signals).trace.count Effect.snClose = 1) := by
  cases h : (parseConfig env defaultConfigPath).2 with
  | error e =>
    rw [main_config_error env os w signals e h]
    simp
  | ok cfg =>
    cases hd : env.newSnapshotter cfg.Root with
    | some e =>
      rw [main_driver_error env os w signals cfg e h hd]
      simp
    | none =>
      by_cases ha : TrimSpace cfg.Address = ""
      · rw [main_address_error env os w signals cfg h hd ha]
        simp
      · rcases hm : os.mkdirAll w (env.dir (TrimSpace cfg.Address)) 0o700 with ⟨w1, _ | e⟩
        · rcases hr : os.removeAll w1 (TrimSpace cfg.Address) with ⟨w2, _ | e⟩
          · rcases hl : os.listen w2 "unix" (TrimSpace cfg.Address) with ⟨w3, _ | e⟩
            · rw [main_booted env os w signals cfg w1 w2 w3 h hd ha hm hr hl]
              rcases signals_split signals with hq | ⟨pre, s, post, rfl, hpre, h1, h2⟩
              · rw [handleSignals_quiet true signals hq]
                simp
              · rw [handleSignals_append_stop pre s post hpre h1 h2]
                simp [bootTrace, List.count_cons, List.count_append, List.count_replicate]
            · rw [main_listen_error env os w signals cfg w1 w2 w3 e h hd ha hm hr hl]
              simp
          · rw [main_remove_error env os w signals cfg w1 w2 e h hd ha hm hr]
            simp
        · rw [main_mkdir_error env os w signals cfg w1 e h hd ha hm]
          simp

/-- C6: the early-failure exits taken after the driver has been created
leave through `os.Exit(1)` and never run the deferred `sn.Close()`: with a
blank address, an uncreatable parent directory, an unremovable stale socket
or an unbindable path the driver is created and `Close` is not called,
whereas the signal-driven shutdown calls it once. -/
theorem main_early_exit_skips_close :
    ((main (goodEnv blankConfig) (unixFS dirOfCleanPath) emptyFS [SIGTERM]).status =
        Status.exited 1 ∧
      Effect.newSnapshotter "/var/lib/svc" ∈
        (main (goodEnv blankConfig) (unixFS dirOfCleanPath) emptyFS [SIGTERM]).trace ∧
      (main (goodEnv blankConfig) (unixFS dirOfCleanPath) emptyFS [SIGTERM]).trace.count
        Effect.snClose = 0) ∧
    ((main (goodEnv svcConfig) (unixFS dirOfCleanPath) lockedDirFS [SIGTERM]).status =
        Status.exited 1 ∧
      Effect.newSnapshotter "/var/lib/svc" ∈
        (main (goodEnv svcConfig) (unixFS dirOfCleanPath) lockedDirFS [SIGTERM]).trace ∧
      (main (goodEnv svcConfig) (unixFS dirOfCleanPath) lockedDirFS [SIGTERM]).trace.count
        Effect.snClose = 0) ∧
    ((main (goodEnv svcConfig) (unixFS dirOfCleanPath) lockedSockFS [SIGTERM]).status =
        Status.exited 1 ∧
      Effect.newSnapshotter "/var/lib/svc" ∈
        (main (goodEnv svcConfig) (unixFS dirOfCleanPath) lockedSockFS [SIGTERM]).trace ∧
      (main (goodEnv svcConfig) (unixFS dirOfCleanPath) lockedSockFS [SIGTERM]).trace.count
        Effect.snClose = 0) ∧
    ((main (goodEnv svcConfig) (unixFS dirOfCleanPath) lockedBindFS [SIGTERM]).status =
        Status.exited 1 ∧
      Effect.newSnapshotter "/var/lib/svc" ∈
        (main (goodEnv svcConfig) (unixFS dirOfCleanPath) lockedBindFS [SIGTERM]).trace ∧
      (main (goodEnv svcConfig) (unixFS dirOfCleanPath) lockedBindFS [SIGTERM]).trace.count
        Effect.snClose = 0) ∧
    ((main (goodEnv svcConfig) (unixFS dirOfCleanPath) emptyFS [SIGTERM]).status =
        Status.returned ∧
      (main (goodEnv svcConfig) (unixFS dirOfCleanPath) emptyFS [SIGTERM]).trace.count
        Effect.snClose = 1) := by
  decide

/-- C7: for every configuration whose address is empty or white space only,
`main` ends with exit status 1 without creating a directory, removing a
path or binding a socket: the trace has no endpoint effect, the accept loop
is not started and the outside world is left as it was. -/
theorem main_blank_address_rejected {σ : Type} (env : Env) (os : FileSys σ) (w : σ)
    (signals : List Signal) (cfg : pluginConfig)
    (h : (parseConfig env defaultConfigPath).2 = Except.ok cfg)
    (hb : isBlank cfg.Address = true) :
    (main env os w signals).status = Status.exited 1 ∧
    (main env os w signals).trace.filter Effect.isEndpoint = [] ∧
    Effect.goServe ∉ (main env os w signals).trace ∧
    (main env os w signals).world = w := by
  cases hd : env.newSnapshotter cfg.Root with
  | some e =>
    rw [main_driver_error env os w signals cfg e h hd]
    simp [Effect.isEndpoint]
  | none =>
    rw [main_address_error env os w signals cfg h hd (TrimSpace_of_isBlank _ hb)]
    simp [Effect.isEndpoint]

/-- C7 at an address made of a space, a tab and a space. -/
theorem main_blank_address_rejected_witness :
    (main (goodEnv blankConfig) (unixFS dirOfCleanPath) emptyFS [SIGTERM]).status =
      Status.exited 1 ∧
    (main (goodEnv blankConfig) (unixFS dirOfCleanPath) emptyFS [SIGTERM]).trace.filter
      Effect.isEndpoint = [] ∧
    Effect.goServe ∉
      (main (goodEnv blankConfig) (unixFS dirOfCleanPath) emptyFS [SIGTERM]).trace ∧
    (main (goodEnv blankConfig) (unixFS dirOfCleanPath) emptyFS [SIGTERM]).world = emptyFS :=
  main_blank_address_rejected (goodEnv blankConfig) (unixFS dirOfCleanPath) emptyFS [SIGTERM]
    blankConfig (by rfl) (by decide)

/-- C8: a failure of any bootstrap step ends the process with exit status 1
right after that step: the trace holds the effects of the steps before it,
the failing call, one error log line and `os.Exit(1)`, and nothing of the
later steps, so no listener exists and the accept loop is not started. The
seven steps are config read, config parse, driver creation, address check,
parent-directory creation, stale-file removal and socket bind. -/
theorem main_startup_failure {σ : Type} (env : Env) (os : FileSys σ) (w : σ)
    (signals : List Signal) :
    (∀ e, env.readFile defaultConfigPath = Except.error e →
      main env os w signals =
        { trace := [Effect.readFile defaultConfigPath, Effect.logError, Effect.exit 1],
          status := Status.exited 1, world := w }) ∧
    (∀ data e, env.readFile defaultConfigPath = Except.ok data →
      env.unmarshal data = Except.error e →
      main env os w signals =
        { trace := [Effect.readFile defaultConfigPath, Effect.logError, Effect.exit 1],
          status := Status.exited 1, world := w }) ∧
    (∀ cfg e, (parseConfig env defaultConfigPath).2 = Except.ok cfg →
      env.newSnapshotter cfg.Root = some e →
      main env os w signals =
        { trace := [Effect.readFile defaultConfigPath, Effect.newSnapshotter cfg.Root,
            Effect.logError, Effect.exit 1],
          status := Status.exited 1, world := w }) ∧
    (∀ cfg, (parseConfig env defaultConfigPath).2 = Except.ok cfg →
      env.newSnapshotter cfg.Root = none → TrimSpace cfg.Address = "" →
      main env os w signals =
        { trace := [Effect.readFile defaultConfigPath, Effect.newSnapshotter cfg.Root,
            Effect.newServer, Effect.registerService, Effect.logError, Effect.exit 1],
          status := Status.exited 1, world := w }) ∧
    (∀ cfg w1 e, (parseConfig env defaultConfigPath).2 = Except.ok cfg →
      env.newSnapshotter cfg.Root = none → TrimSpace cfg.Address ≠ "" →
      os.mkdirAll w (env.dir (TrimSpace cfg.Address)) 0o700 = (w1, some e) →
      main env os w signals =
        { trace := [Effect.readFile defaultConfigPath, Effect.newSnapshotter cfg.Root,
            Effect.newServer, Effect.registerService,
            Effect.mkdirAll (env.dir (TrimSpace cfg.Address)) 0o700,
            Effect.logError, Effect.exit 1],
          status := Status.exited 1, world := w1 }) ∧
    (∀ cfg w1 w2 e, (parseConfig env defaultConfigPath).2 = Except.ok cfg →
      env.newSnapshotter cfg.Root = none → TrimSpace cfg.Address ≠ "" →
      os.mkdirAll w (env.dir (TrimSpace cfg.Address)) 0o700 = (w1, none) →
      os.removeAll w1 (TrimSpace cfg.Address) = (w2, some e) →
      main env os w signals =
        { trace := [Effect.readFile defaultConfigPath, Effect.newSnapshotter cfg.Root,
            Effect.newServer, Effect.registerService,
            Effect.mkdirAll (env.dir (TrimSpace cfg.Address)) 0o700,
            Effect.removeAll (TrimSpace cfg.Address),
            Effect.logError, Effect.exit 1],
          status := Status.exited 1, world := w2 }) ∧
    (∀ cfg w1 w2 w3 e, (parseConfig env defaultConfigPath).2 = Except.ok cfg →
      env.newSnapshotter cfg.Root = none → TrimSpace cfg.Address ≠ "" →
      os.mkdirAll w (env.dir (TrimSpace cfg.Address)) 0o700 = (w1, none) →
      os.removeAll w1 (TrimSpace cfg.Address) = (w2, none) →
      os.listen w2 "unix" (TrimSpace cfg.Address) = (w3, some e) →
      main env os w signals =
        { trace := [Effect.readFile defaultConfigPath, Effect.newSnapshotter cfg.Root,
            Effect.newServer, Effect.registerService,
            Effect.mkdirAll (env.dir (TrimSpace cfg.Address)) 0o700,
            Effect.removeAll (TrimSpace cfg.Address),
            Effect.listen "unix" (TrimSpace cfg.Address),
            Effect.logError, Effect.exit 1],
          status := Status.exited 1, world := w3 }) := by
  refine ⟨?_, ?_, ?_, ?_, ?_, ?_, ?_⟩
  · intro e h
    exact main_config_error env os w signals _ (by simp [parseConfig, h]; rfl)
  · intro data e h1 h2
    exact main_config_error env os w signals _ (by simp [parseConfig, h1, h2]; rfl)
  · intro cfg e h hd
    exact main_driver_error env os w signals cfg e h hd
  · intro cfg h hd ha
    exact main_address_error env os w signals cfg h hd ha
  · intro cfg w1 e h hd ha hm
    exact main_mkdir_error env os w signals cfg w1 e h hd ha hm
  · intro cfg w1 w2 e h hd ha hm hr
    exact main_remove_error env os w signals cfg w1 w2 e h hd ha hm hr
  · intro cfg w1 w2 w3 e h hd ha hm hr hl
    exact main_listen_error env os w signals cfg w1 w2 w3 e h hd ha hm hr hl

/-- C8 at one failing run per step: missing config file, malformed config,
driver failure, blank address, uncreatable parent directory, unremovable
stale socket, unbindable path. -/
theorem main_startup_failure_witness :
    (main (sampleEnv (Except.error "no such file") (Except.ok svcConfig) none)
        (unixFS dirOfCleanPath) emptyFS [SIGTERM]).trace =
      [Effect.readFile defaultConfigPath, Effect.logError, Effect.exit 1] ∧
    (main (sampleEnv (Except.ok "address") (Except.error "invalid character") none)
        (unixFS dirOfCleanPath) emptyFS [SIGTERM]).trace =
      [Effect.readFile defaultConfigPath, Effect.logError, Effect.exit 1] ∧
    (main (sampleEnv (Except.ok "config") (Except.ok svcConfig) (some "no backing store"))
        (unixFS dirOfCleanPath) emptyFS [SIGTERM]).trace =
      [Effect.readFile defaultConfigPath, Effect.newSnapshotter "/var/lib/svc",
       Effect.logError, Effect.exit 1] ∧
    (main (goodEnv blankConfig) (unixFS dirOfCleanPath) emptyFS [SIGTERM]).trace =
      [Effect.readFile defaultConfigPath, Effect.newSnapshotter "/var/lib/svc",
       Effect.newServer, Effect.registerService, Effect.logError, Effect.exit 1] ∧
    (main (goodEnv svcConfig) (unixFS dirOfCleanPath) lockedDirFS [SIGTERM]).trace =
      [Effect.readFile defaultConfigPath, Effect.newSnapshotter "/var/lib/svc",
       Effect.newServer, Effect.registerService,
       Effect.mkdirAll (dirOfCleanPath (TrimSpace svcConfig.Address)) 0o700,
       Effect.logError, Effect.exit 1] ∧
    (main (goodEnv svcConfig) (unixFS dirOfCleanPath) lockedSockFS [SIGTERM]).trace =
      [Effect.readFile defaultConfigPath, Effect.newSnapshotter "/var/lib/svc",
       Effect.newServer, Effect.registerService,
       Effect.mkdirAll (dirOfCleanPath (TrimSpace svcConfig.Address)) 0o700,
       Effect.removeAll (TrimSpace svcConfig.Address),
       Effect.logError, Effect.exit 1] ∧
    (main (goodEnv svcConfig) (unixFS dirOfCleanPath) lockedBindFS [SIGTERM]).trace =
      [Effect.readFile defaultConfigPath, Effect.newSnapshotter "/var/lib/svc",
       Effect.newServer, Effect.registerService,
       Effect.mkdirAll (dirOfCleanPath (TrimSpace svcConfig.Address)) 0o700,
       Effect.removeAll (TrimSpace svcConfig.Address),
       Effect.listen "unix" (TrimSpace svcConfig.Address),
       Effect.logError, Effect.exit 1] := by
  refine ⟨?_, ?_, ?_, ?_, ?_, ?_, ?_⟩
  · rw [(main_startup_failure
      (sampleEnv (Except.error "no such file") (Except.ok svcConfig) none)
      (unixFS dirOfCleanPath) emptyFS [SIGTERM]).1 "no such file" rfl]
  · rw [(main_startup_failure
      (sampleEnv (Except.ok "address") (Except.error "invalid character") none)
      (unixFS dirOfCleanPath) emptyFS [SIGTERM]).2.1
      "address" "invalid character" rfl rfl]
  · rw [(main_startup_failure
      (sampleEnv (Except.ok "config") (Except.ok svcConfig) (some "no backing store"))
      (unixFS dirOfCleanPath) emptyFS [SIGTERM]).2.2.1
      svcConfig "no backing store" rfl rfl]
    rfl
  · rw [(main_startup_failure (goodEnv blankConfig) (unixFS dirOfCleanPath) emptyFS
      [SIGTERM]).2.2.2.1 blankConfig rfl rfl (by decide)]
    rfl
  · rw [(main_startup_failure (goodEnv svcConfig) (unixFS dirOfCleanPath) lockedDirFS
      [SIGTERM]).2.2.2.2.1 svcConfig lockedDirFS "permission denied" rfl rfl
      (by decide) (by decide)]
    rfl
  · rw [(main_startup_failure (goodEnv svcConfig) (unixFS dirOfCleanPath) lockedSockFS
      [SIGTERM]).2.2.2.2.2.1 svcConfig lockedSockFS lockedSockFS "permission denied" rfl rfl
      (by decide) (by decide) (by decide)]
    rfl
  · rw [(main_startup_failure (goodEnv svcConfig) (unixFS dirOfCleanPath) lockedBindFS
      [SIGTERM]).2.2.2.2.2.2 svcConfig lockedBindFS lockedBindFS lockedBindFS
      "permission denied" rfl rfl (by decide) (by decide) (by decide) (by decide)]
    rfl

/-! ## Endpoint preparation over the file-system model -/

/-- Removal of a path at which nothing exists reports no error and changes
nothing. -/
theorem FS.removeAll_absent (fs : FS) (path : String)
    (h1 : path ∉ fs.dirs) (h2 : path ∉ fs.files) : FS.removeAll fs path = (fs, none) := by
  simp [FS.removeAll, h1, h2]

/-- Binding a free path in an existing directory creates the socket file. -/
theorem FS.listen_free (parent : String → String) (fs : FS) (path : String)
    (h1 : path ∉ fs.dirs) (h2 : path ∉ fs.files) (h3 : parent path ∈ fs.dirs)
    (h4 : path ∉ fs.locked) :
    FS.listen parent fs "unix" path = ({ fs with files := path :: fs.files }, none) := by
  simp [FS.listen, h1, h2, h3, h4]

/-- Directory creation followed by removal of the address path, from a
state in which the directory is creatable and the path removable: both
succeed and leave the directory in place and the path free. -/
theorem FS.mkdir_remove_ok (fs : FS) (d a : String) (perm : Nat) (hda : d ≠ a)
    (hcreat : d ∈ fs.dirs ∨ (d ∉ fs.files ∧ d ∉ fs.locked)) (hrem : a ∉ fs.locked) :
    ∃ w1 w2, FS.mkdirAll fs d perm = (w1, none) ∧ FS.removeAll w1 a = (w2, none) ∧
      d ∈ w2.dirs ∧ a ∉ w2.dirs ∧ a ∉ w2.files ∧ a ∉ w2.locked := by
  have hmk : ∃ w1, FS.mkdirAll fs d perm = (w1, none) ∧ d ∈ w1.dirs ∧ a ∉ w1.locked := by
    by_cases hd : d ∈ fs.dirs
    · exact ⟨fs, by simp [FS.mkdirAll, hd], hd, hrem⟩
    · rcases hcreat with h | ⟨h1, h2⟩
      · exact absurd h hd
      · exact ⟨{ fs with dirs := d :: fs.dirs }, by simp [FS.mkdirAll, hd, h1, h2],
          by simp, hrem⟩
  obtain ⟨w1, h1, hd1, hl1⟩ := hmk
  by_cases hex : a ∉ w1.dirs ∧ a ∉ w1.files
  · exact ⟨w1, w1, h1, FS.removeAll_absent w1 a hex.1 hex.2, hd1, hex.1, hex.2, hl1⟩
  · refine ⟨w1, { w1 with dirs := w1.dirs.filter (fun p => p ≠ a),
                          files := w1.files.filter (fun p => p ≠ a) }, h1, ?_, ?_, ?_, ?_, hl1⟩
    · simp only [FS.removeAll, hex, hl1, if_false]
    · simp [List.mem_filter, hd1, hda]
    · simp [List.mem_filter]
    · simp [List.mem_filter]

/-- Preparation from the state a previous run leaves behind: the directory
exists, the stale socket is removed, and binding recreates it. -/
theorem FS.prepare_again (parent : String → String) (w : FS) (a : String) (perm : Nat)
    (hd : parent a ∈ w.dirs) (h1 : a ∉ w.dirs) (h2 : a ∉ w.files) (h3 : a ∉ w.locked) :
    FS.mkdirAll { w with files := a :: w.files } (parent a) perm =
      ({ w with files := a :: w.files }, none) ∧
    FS.removeAll { w with files := a :: w.files } a = (w, none) ∧
    FS.listen parent w "unix" a = ({ w with files := a :: w.files }, none) := by
  refine ⟨by simp [FS.mkdirAll, hd], ?_, FS.listen_free parent w a h1 h2 hd h3⟩
  have hf1 : w.dirs.filter (fun p => !decide (p = a)) = w.dirs := by
    rw [List.filter_eq_self]
    intro p hp
    have : p ≠ a := fun h => h1 (h ▸ hp)
    simpa using this
  have hf2 : w.files.filter (fun p => !decide (p = a)) = w.files := by
    rw [List.filter_eq_self]
    intro p hp
    have : p ≠ a := fun h => h2 (h ▸ hp)
    simpa using this
  simp [FS.removeAll, h3, hf1, hf2]

/-- C9: over the file-system model, when the configuration loads, the
driver starts, the parent directory of the address is creatable and the
address path removable, bootstrap reaches the accept loop twice in
succession with no cleanup in between. The first run leaves the socket file
behind; the second run removes that stale file and binds again, ending in
the same file-system state. Removal of a path at which nothing exists
reports no error. -/
theorem endpoint_prepare_twice (env : Env) (fs : FS) (cfg : pluginConfig)
    (h : (parseConfig env defaultConfigPath).2 = Except.ok cfg)
    (hd : env.newSnapshotter cfg.Root = none)
    (ha : TrimSpace cfg.Address ≠ "")
    (hda : env.dir (TrimSpace cfg.Address) ≠ TrimSpace cfg.Address)
    (hcreat : env.dir (TrimSpace cfg.Address) ∈ fs.dirs ∨
      (env.dir (TrimSpace cfg.Address) ∉ fs.files ∧
        env.dir (TrimSpace cfg.Address) ∉ fs.locked))
    (hrem : TrimSpace cfg.Address ∉ fs.locked) :
    (main env (unixFS env.dir) fs []).status = Status.serving ∧
    (main env (unixFS env.dir) fs []).trace = bootTrace env cfg ∧
    TrimSpace cfg.Address ∈ (main env (unixFS env.dir) fs []).world.files ∧
    (main env (unixFS env.dir) (main env (unixFS env.dir) fs []).world []).status =
      Status.serving ∧
    (main env (unixFS env.dir) (main env (unixFS env.dir) fs []).world []).trace =
      bootTrace env cfg ∧
    (main env (unixFS env.dir) (main env (unixFS env.dir) fs []).world []).world =
      (main env (unixFS env.dir) fs []).world ∧
    (∀ (w : FS) (p : String), p ∉ w.dirs → p ∉ w.files → (FS.removeAll w p).2 = none) := by
  obtain ⟨w1, w2, hm, hr, hd2, ha1, ha2, ha3⟩ :=
    FS.mkdir_remove_ok fs (env.dir (TrimSpace cfg.Address)) (TrimSpace cfg.Address) 0o700
      hda hcreat hrem
  have hl := FS.listen_free env.dir w2 (TrimSpace cfg.Address) ha1 ha2 hd2 ha3
  obtain ⟨hm', hr', hl'⟩ :=
    FS.prepare_again env.dir w2 (TrimSpace cfg.Address) 0o700 hd2 ha1 ha2 ha3
  have run1 := main_booted env (unixFS env.dir) fs [] cfg w1 w2 _ h hd ha hm hr hl
  have run2 := main_booted env (unixFS env.dir) _ [] cfg _ w2 _ h hd ha hm' hr' hl'
  rw [run1]
  simp only [handleSignals_nil, List.map_nil, List.append_nil, if_false, Bool.false_eq_true]
  rw [run2]
  simp only [handleSignals_nil, List.map_nil, List.append_nil, if_false, Bool.false_eq_true]
  refine ⟨trivial, trivial, by simp, trivial, trivial, trivial, ?_⟩
  intro w p h1 h2
  rw [FS.removeAll_absent w p h1 h2]

/-- C9 at the scenario address on an empty file system. -/
theorem endpoint_prepare_twice_witness :
    (main (goodEnv svcConfig) (unixFS (goodEnv svcConfig).dir) emptyFS []).status =
      Status.serving ∧
    (main (goodEnv svcConfig) (unixFS (goodEnv svcConfig).dir) emptyFS []).trace =
      bootTrace (goodEnv svcConfig) svcConfig ∧
    TrimSpace svcConfig.Address ∈
      (main (goodEnv svcConfig) (unixFS (goodEnv svcConfig).dir) emptyFS []).world.files ∧
    (main (goodEnv svcConfig) (unixFS (goodEnv svcConfig).dir)
      (main (goodEnv svcConfig) (unixFS (goodEnv svcConfig).dir) emptyFS []).world
      []).status = Status.serving ∧
    (main (goodEnv svcConfig) (unixFS (goodEnv svcConfig).dir)
      (main (goodEnv svcConfig) (unixFS (goodEnv svcConfig).dir) emptyFS []).world
      []).trace = bootTrace (goodEnv svcConfig) svcConfig ∧
    (main (goodEnv svcConfig) (unixFS (goodEnv svcConfig).dir)
      (main (goodEnv svcConfig) (unixFS (goodEnv svcConfig).dir) emptyFS []).world
      []).world =
      (main (goodEnv svcConfig) (unixFS (goodEnv svcConfig).dir) emptyFS []).world ∧
    (∀ (w : FS) (p : String), p ∉ w.dirs → p ∉ w.files → (FS.removeAll w p).2 = none) :=
  endpoint_prepare_twice (goodEnv svcConfig) emptyFS svcConfig (by rfl) (by rfl)
    (by decide) (by decide) (by decide) (by decide)

/-! ## Shutdown -/

/-- C10: after a successful bootstrap, when the queue delivers ignorable and
diagnostic signals followed by a terminate request, the process performs,
after the bootstrap effects and one dump per SIGUSR1, exactly
`server.Stop`, `close(doneCh)`, the receive from `doneCh` in `main` and the
deferred `sn.Close()`, in this order and once each, and `main` returns
instead of leaving through `os.Exit`. While no terminate request has
arrived `main` stays blocked: `doneCh` is not closed, the receive has not
completed and `Close` has not run. -/
theorem main_shutdown_order {σ : Type} (env : Env) (os : FileSys σ) (w : σ)
    (cfg : pluginConfig) (w1 w2 w3 : σ)
    (h : (parseConfig env defaultConfigPath).2 = Except.ok cfg)
    (hd : env.newSnapshotter cfg.Root = none) (ha : TrimSpace cfg.Address ≠ "")
    (hm : os.mkdirAll w (env.dir (TrimSpace cfg.Address)) 0o700 = (w1, none))
    (hr : os.removeAll w1 (TrimSpace cfg.Address) = (w2, none))
    (hl : os.listen w2 "unix" (TrimSpace cfg.Address) = (w3, none)) :
    (∀ pre s post, (∀ x ∈ pre, x = SIGUSR1 ∨ x = SIGPIPE) → s ≠ SIGUSR1 → s ≠ SIGPIPE →
      (main env os w (pre ++ s :: post)).trace =
        bootTrace env cfg ++
          List.replicate (pre.count SIGUSR1) (Effect.sig SigEvent.dumpStacks) ++
          [Effect.sig SigEvent.serverStop, Effect.sig SigEvent.closeDone,
           Effect.recvDone, Effect.snClose] ∧
      (main env os w (pre ++ s :: post)).status = Status.returned ∧
      (main env os w (pre ++ s :: post)).trace.count (Effect.sig SigEvent.serverStop) = 1 ∧
      (main env os w (pre ++ s :: post)).trace.count (Effect.sig SigEvent.closeDone) = 1 ∧
      (main env os w (pre ++ s :: post)).trace.count Effect.recvDone = 1 ∧
      (main env os w (pre ++ s :: post)).trace.count Effect.snClose = 1 ∧
      (main env os w (pre ++ s :: post)).trace.count (Effect.exit 1) = 0) ∧
    (∀ signals, (∀ x ∈ signals, x = SIGUSR1 ∨ x = SIGPIPE) →
      (main env os w signals).status = Status.serving ∧
      (main env os w signals).trace =
        bootTrace env cfg ++
          List.replicate (signals.count SIGUSR1) (Effect.sig SigEvent.dumpStacks) ∧
      Effect.sig SigEvent.serverStop ∉ (main env os w signals).trace ∧
      Effect.sig SigEvent.closeDone ∉ (main env os w signals).trace ∧
      Effect.recvDone ∉ (main env os w signals).trace ∧
      Effect.snClose ∉ (main env os w signals).trace) := by
  constructor
  · intro pre s post hpre h1 h2
    rw [main_booted env os w (pre ++ s :: post) cfg w1 w2 w3 h hd ha hm hr hl,
      handleSignals_append_stop pre s post hpre h1 h2]
    simp [bootTrace, List.count_cons, List.count_append, List.count_replicate]
  · intro signals hq
    rw [main_booted env os w signals cfg w1 w2 w3 h hd ha hm hr hl,
      handleSignals_quiet true signals hq]
    simp [bootTrace, List.mem_replicate]

/-- C10 at the scenario configuration, a dump request, a broken pipe and a
burst of two terminate signals. -/
theorem main_shutdown_order_witness :
    (main (goodEnv svcConfig) (unixFS dirOfCleanPath) emptyFS
        ([SIGUSR1, SIGPIPE] ++ SIGTERM :: [SIGINT])).trace =
      bootTrace (goodEnv svcConfig) svcConfig ++
        List.replicate ([SIGUSR1, SIGPIPE].count SIGUSR1) (Effect.sig SigEvent.dumpStacks) ++
        [Effect.sig SigEvent.serverStop, Effect.sig SigEvent.closeDone,
         Effect.recvDone, Effect.snClose] ∧
    (main (goodEnv svcConfig) (unixFS dirOfCleanPath) emptyFS
        ([SIGUSR1, SIGPIPE] ++ SIGTERM :: [SIGINT])).status = Status.returned ∧
    (main (goodEnv svcConfig) (unixFS dirOfCleanPath) emptyFS
        ([SIGUSR1, SIGPIPE] ++ SIGTERM :: [SIGINT])).trace.count
      (Effect.sig SigEvent.serverStop) = 1 ∧
    (main (goodEnv svcConfig) (unixFS dirOfCleanPath) emptyFS
        ([SIGUSR1, SIGPIPE] ++ SIGTERM :: [SIGINT])).trace.count
      (Effect.sig SigEvent.closeDone) = 1 ∧
    (main (goodEnv svcConfig) (unixFS dirOfCleanPath) emptyFS
        ([SIGUSR1, SIGPIPE] ++ SIGTERM :: [SIGINT])).trace.count Effect.recvDone = 1 ∧
    (main (goodEnv svcConfig) (unixFS dirOfCleanPath) emptyFS
        ([SIGUSR1, SIGPIPE] ++ SIGTERM :: [SIGINT])).trace.count Effect.snClose = 1 ∧
    (main (goodEnv svcConfig) (unixFS dirOfCleanPath) emptyFS
        ([SIGUSR1, SIGPIPE] ++ SIGTERM :: [SIGINT])).trace.count (Effect.exit 1) = 0 :=
  (main_shutdown_order (goodEnv svcConfig) (unixFS dirOfCleanPath) emptyFS svcConfig
      { dirs := ["/run/svc"], files := [], locked := [] }
      { dirs := ["/run/svc"], files := [], locked := [] }
      { dirs := ["/run/svc"], files := ["/run/svc/svc.sock"], locked := [] }
      (by rfl) (by rfl) (by decide) (by decide) (by decide) (by decide)).1
    [SIGUSR1, SIGPIPE] SIGTERM [SIGINT] (by decide) (by decide) (by decide)

end OverlaybdSnapshotter
